import Mathlib

/-!
Verification of the vkrt ray tracer's core components against its
natural-language specification.  The definitions below are shallow
embeddings of the corresponding C++ functions: machine unsigned
arithmetic is modelled with `Nat` and an explicit `% 2^32` where the
source computes in `uint32_t`, vectors are `List`s, fallible container
accesses are `Option`, and float vectors are modelled componentwise
with `Int` wherever the source only shuffles components and never does
floating-point arithmetic on them.
-/

namespace Vkrt

/-! ## Compile-time constants (VulkanUtils.hpp / Raytracer.cpp) -/

/-- `c_swapchainImageCount` from VulkanUtils.hpp line 26. -/
def c_swapchainImageCount : Nat := 3

/-- `c_shaderCount` from Raytracer.cpp line 43. -/
def c_shaderCount : Nat := 4

/-- `c_shaderGroupCount` from Raytracer.cpp line 44. -/
def c_shaderGroupCount : Nat := 4

/-! ## Utils.cpp: toVec4 -/

/-- Component-wise model of `glm::vec3`.  The claims about these vectors
only move components around, so an `Int` component type is a faithful
stand-in for `float`. -/
structure Vec3 where
  x : Int
  y : Int
  z : Int
deriving DecidableEq, Repr

/-- Component-wise model of `glm::vec4`. -/
structure Vec4 where
  x : Int
  y : Int
  z : Int
  w : Int
deriving DecidableEq, Repr

/-- `toVec4` from Utils.cpp lines 8-11.  The source reads
`return glm::vec4(v.x, v.y, v.x, w);` — note the third argument is
`v.x`, not `v.z`. -/
def toVec4 (v : Vec3) (w : Int) : Vec4 :=
  ⟨v.x, v.y, v.x, w⟩

/-! ## Context.cpp: swapchain-depth resource counts and the frame-slot cycle -/

/-- `Context::createSwapchain` (Context.cpp line 400) resizes
`m_swapchainImages` to `c_swapchainImageCount`. -/
def swapchainImagesCount : Nat := c_swapchainImageCount

/-- `Context::createFences` (Context.cpp line 439) resizes
`m_inFlightFences` to `m_swapchainImages.size()`. -/
def inFlightFenceCount : Nat := swapchainImagesCount

/-- `Context::createSemaphores` (Context.cpp line 422) resizes
`m_imageAvailableSemaphores` to `m_swapchainImages.size()`. -/
def imageAvailableSemaphoreCount : Nat := swapchainImagesCount

/-- `Context::createSemaphores` (Context.cpp line 423) resizes
`m_renderFinishedSemaphores` to `m_swapchainImages.size()`. -/
def renderFinishedSemaphoreCount : Nat := swapchainImagesCount

/-- The frame-slot advance at the top of `Context::acquireNextSwapchainImage`
(Context.cpp lines 143-147): `++m_frameIndex; if (m_frameIndex ==
ui32Size(m_swapchainImages)) m_frameIndex = 0;`. -/
def nextFrameIndex (fi : Nat) : Nat :=
  let fi2 := fi + 1
  if fi2 = swapchainImagesCount then 0 else fi2

/-- The value of `m_frameIndex` after `k` calls to
`Context::acquireNextSwapchainImage`, starting from the member
initializer `m_frameIndex{0}` (Context.hpp line 67).  The slot used by
the k-th call is `frameIndexAfterCalls k`. -/
def frameIndexAfterCalls : Nat → Nat
  | 0 => 0
  | k + 1 => nextFrameIndex (frameIndexAfterCalls k)

/-! ## Raytracer.cpp: descriptor set layouts -/

/-- The Vulkan descriptor types used by the two cited layouts. -/
inductive DescriptorType where
  | combinedImageSampler
  | storageBuffer
deriving DecidableEq, Repr

/-- One `VkDescriptorSetLayoutBinding` (the fields the claims mention). -/
structure LayoutBinding where
  binding : Nat
  descriptorType : DescriptorType
  descriptorCount : Nat
deriving DecidableEq, Repr

/-- A `VkDescriptorSetLayoutCreateInfo` together with the optional
`VkDescriptorSetLayoutBindingFlagsCreateInfoEXT` chained through
`pNext`; `bindingFlagsPartiallyBound` is `some l` when such a struct is
chained, with `l` the per-binding PARTIALLY_BOUND flags. -/
structure DescriptorSetLayoutInfo where
  bindings : List LayoutBinding
  bindingFlagsPartiallyBound : Option (List Bool)
deriving DecidableEq, Repr

/-- The layout built by `Raytracer::createTexturesDescriptorSetLayoutAndAllocate`
(Raytracer.cpp lines 874-888): one combined-image-sampler binding with
`descriptorCount = ui32Size(m_images)`, and no binding-flags struct
chained (`layoutInfo.pNext` is left null). -/
def texturesDescriptorSetLayout (imageCount : Nat) : DescriptorSetLayoutInfo :=
  { bindings := [⟨0, DescriptorType.combinedImageSampler, imageCount⟩],
    bindingFlagsPartiallyBound := none }

/-- The layout built by `Raytracer::createMaterialIndexDescriptorSetLayoutAndAllocate`
(Raytracer.cpp lines 835-858): one storage-buffer binding, with a
binding-flags struct carrying `VK_DESCRIPTOR_BINDING_PARTIALLY_BOUND_BIT_EXT`
chained through `layoutInfo.pNext`. -/
def materialIndexDescriptorSetLayout : DescriptorSetLayoutInfo :=
  { bindings := [⟨0, DescriptorType.storageBuffer, 1⟩],
    bindingFlagsPartiallyBound := some [true] }

/-- Whether a layout was created with a partially-bound binding flag. -/
def hasPartiallyBoundFlag (l : DescriptorSetLayoutInfo) : Bool :=
  l.bindingFlagsPartiallyBound.isSome

/-! ## Raytracer.cpp: createTextures container accesses -/

/-- Model of `Model::Image` (Model.hpp lines 27-34). -/
structure Image where
  width : Nat
  height : Nat
  components : Nat
  bitsPerChannel : Nat
  data : List Nat
deriving DecidableEq, Repr

/-- The unconditional first-image access of `Raytracer::createTextures`
(Raytracer.cpp lines 461-495): `m_images` is resized to the model's
image count and `vkGetImageMemoryRequirements(m_device, m_images[0], …)`
reads element 0 regardless of that count.  The element is modelled by
its slot number; the result is `none` exactly when the read is out of
bounds. -/
def createTexturesFirstImageAccess (images : List Image) : Option Nat :=
  let handles := List.range images.length
  handles.get? 0

/-! ## Frame-loop synchronization model (Context.cpp 141-180, Raytracer.cpp 133-202)

One tick of the steady-state frame loop runs
`Context::acquireNextSwapchainImage` (advance `m_frameIndex`
round-robin, wait on and reset `m_inFlightFences[m_frameIndex]`),
then `Raytracer::render` (reset and re-record
`m_commandBuffers[imageIndex]`, where `imageIndex` is the value the
driver returned from `vkAcquireNextImageKHR`), then
`Context::submitCommandBuffers` (submit that command buffer with
`m_inFlightFences[m_frameIndex]` as the completion fence).

Submissions are numbered consecutively.  The GPU model is generous:
waiting on a fence that was used for submission `q` certifies
completion of every submission with number at most `q` (Vulkan
guarantees fence signals cover all earlier submission-order work on
the queue).  Waiting on a fence that is still in its initial
created-signaled state (never yet submitted) certifies nothing. -/

/-- Synchronization-relevant state of `Context` plus the bookkeeping
ghost fields of the GPU model. -/
structure SyncState where
  frameIndex : Nat
  nextSeq : Nat
  fenceLastSubmit : Nat → Option Nat
  cbLastSubmit : Nat → Option Nat
  guaranteedUpTo : Nat

/-- State before the first frame: `m_frameIndex{0}` (Context.hpp line
67), all fences created signaled with no submission attached
(Context.cpp lines 437-451), no command buffer submitted yet. -/
def initSyncState : SyncState :=
  ⟨0, 1, fun _ => none, fun _ => none, 0⟩

/-- One tick of the frame loop with driver-chosen acquired image index
`img`.  Returns the next state and whether the command buffer that is
re-recorded this tick (`m_commandBuffers[img]`, Raytracer.cpp lines
147-149) had its previous submission certified complete by some fence
wait — the property claim C2 asserts. -/
def syncTick (s : SyncState) (img : Nat) : SyncState × Bool :=
  let fi := nextFrameIndex s.frameIndex
  let g := match s.fenceLastSubmit fi with
    | none => s.guaranteedUpTo
    | some q => max s.guaranteedUpTo q
  let safe := match s.cbLastSubmit img with
    | none => true
    | some q => decide (q ≤ g)
  let s2 : SyncState :=
    { frameIndex := fi,
      nextSeq := s.nextSeq + 1,
      fenceLastSubmit := fun j => if j = fi then some s.nextSeq else s.fenceLastSubmit j,
      cbLastSubmit := fun j => if j = img then some s.nextSeq else s.cbLastSubmit j,
      guaranteedUpTo := g }
  (s2, safe)

/-- Runs the frame loop over a list of driver-chosen acquired image
indices and reports whether every tick re-recorded its command buffer
only after the buffer's previous submission was certified complete. -/
def syncRunTrace : SyncState → List Nat → Bool
  | _, [] => true
  | s, img :: rest =>
    match syncTick s img with
    | (s2, ok) => ok && syncRunTrace s2 rest

/-! ## Raytracer.cpp: createShaderBindingTable -/

/-- `shaderBindingTableSize` from Raytracer.cpp line 1501: the
host-visible shader-binding-table buffer is created with size
`shaderGroupHandleSize * c_shaderGroupCount` (and this is also the
size mapped at line 1512). -/
def shaderBindingTableSize (shaderGroupHandleSize : Nat) : Nat :=
  shaderGroupHandleSize * c_shaderGroupCount

/-- First byte written by the i-th `memcpy` of the copy loop at
Raytracer.cpp lines 1514-1518: the destination pointer starts at the
mapped base and advances by `shaderGroupBaseAlignment` each iteration. -/
def sbtCopyStart (shaderGroupBaseAlignment i : Nat) : Nat :=
  i * shaderGroupBaseAlignment

/-- One past the last byte written by the i-th `memcpy` of the copy
loop (each copy transfers `shaderGroupHandleSize` bytes). -/
def sbtCopyEnd (shaderGroupHandleSize shaderGroupBaseAlignment i : Nat) : Nat :=
  i * shaderGroupBaseAlignment + shaderGroupHandleSize

/-- Modelled from the spec: the buffer size the specification says is
allocated for the shader binding table, `alignment × groupCount`
(spec §4.5).  Kept separate from `shaderBindingTableSize`, which is
what the code computes, so the two can be compared. -/
def specShaderBindingTableSize (shaderGroupBaseAlignment : Nat) : Nat :=
  shaderGroupBaseAlignment * c_shaderGroupCount

/-! ## Error-handling policy (VulkanUtils.hpp 28-37 and cited call sites) -/

/-- `VkResult`: success or a numeric failure code. -/
inductive VkResult where
  | success
  | errorCode (code : Int)
deriving DecidableEq, Repr

/-- The `VK_CHECK` macro from VulkanUtils.hpp lines 28-37: evaluates
its argument and aborts the process exactly when the result is not
`VK_SUCCESS`.  Returns `true` when the process aborts. -/
def vkCheckAborts (r : VkResult) : Bool :=
  match r with
  | VkResult.success => false
  | VkResult.errorCode _ => true

/-- One `VkResult`-returning Vulkan call site: enclosing function,
callee, source line, and whether the call is wrapped in `VK_CHECK`. -/
structure VkCallSite where
  caller : String
  vulkanCall : String
  line : Nat
  wrappedInVkCheck : Bool
deriving DecidableEq, Repr

/-- Every `VkResult`-returning Vulkan call in the functions the claim
cites: `Context::acquireNextSwapchainImage`,
`Context::submitCommandBuffers`, `Context::createFences` (Context.cpp)
and `Raytracer::render` (Raytracer.cpp), with its source line and
whether the source wraps it in `VK_CHECK`. -/
def citedVkCallSites : List VkCallSite := [
  ⟨"Context::acquireNextSwapchainImage", "vkAcquireNextImageKHR", 148, true⟩,
  ⟨"Context::acquireNextSwapchainImage", "vkWaitForFences", 149, true⟩,
  ⟨"Context::acquireNextSwapchainImage", "vkResetFences", 150, true⟩,
  ⟨"Context::submitCommandBuffers", "vkQueueSubmit", 168, true⟩,
  ⟨"Context::submitCommandBuffers", "vkQueuePresentKHR", 179, true⟩,
  ⟨"Context::createFences", "vkCreateFence", 448, false⟩,
  ⟨"Raytracer::render", "vkResetCommandBuffer", 148, false⟩,
  ⟨"Raytracer::render", "vkBeginCommandBuffer", 149, false⟩,
  ⟨"Raytracer::render", "vkEndCommandBuffer", 197, true⟩]

/-- Whether every call site in a list is checked at the call site. -/
def allVkCallsChecked (l : List VkCallSite) : Bool :=
  l.all (fun c => c.wrappedInVkCheck)

/-! ## Model.hpp: the external model's data -/

/-- `Model::Vertex` (Model.hpp lines 12-18): four `glm::vec4`
attributes.  The packer only copies vertices and counts them, so the
`Int` component stand-in is faithful. -/
structure Vertex where
  position : Vec4
  normal : Vec4
  uv : Vec4
  tangent : Vec4
deriving DecidableEq, Repr

/-- `Model::Primitive` (Model.hpp lines 38-43).  `Model::Index` is
`uint32_t`; index values are represented as `Nat` below `2^32`. -/
structure Primitive where
  vertices : List Vertex
  indices : List Nat
  material : Int
deriving DecidableEq, Repr

/-- `Model::Material` (Model.hpp lines 20-25): `int` image indices that
are `-1` when the corresponding texture is absent. -/
structure Material where
  baseColor : Int
  metallicRoughnessImage : Int
  normalImage : Int
deriving DecidableEq, Repr

/-- Truncation to `uint32_t`. -/
def u32 (n : Nat) : Nat := n % 2 ^ 32

/-! ## Raytracer.cpp: createVertexAndIndexBuffer (the Geometry Packer) -/

/-- The index-rewrite loop of `Raytracer::createVertexAndIndexBuffer`
(Raytracer.cpp lines 650-679): for each primitive, every local index is
written out as `indexCounterOffset + index` in `uint32_t` arithmetic,
and afterwards `indexCounterOffset += primitive.vertices.size()`
(also a `uint32_t` accumulation).  The result is the flat rewritten
index sequence in write order. -/
def rewriteIndicesAux : List Primitive → Nat → List Nat
  | [], _ => []
  | p :: ps, off =>
    p.indices.map (fun i => u32 (off + i)) ++
      rewriteIndicesAux ps (u32 (off + p.vertices.length))

/-- The full rewritten index sequence, starting from
`indexCounterOffset = 0` (Raytracer.cpp line 651). -/
def rewriteIndices (ps : List Primitive) : List Nat :=
  rewriteIndicesAux ps 0

/-- Sum of the vertex counts of all primitives before primitive `p`. -/
def vertexCountBefore (ps : List Primitive) (p : Nat) : Nat :=
  ((ps.take p).map (fun q => q.vertices.length)).sum

/-- `totalPackedVertexCount`: the sum of all primitives' vertex counts,
the number of vertices in the packed vertex region. -/
def totalPackedVertexCount (ps : List Primitive) : Nat :=
  (ps.map (fun q => q.vertices.length)).sum

/-- Number of indices written before primitive `p`'s first index, i.e.
the value of `indexCounter` when primitive `p` starts. -/
def indexCountBefore (ps : List Primitive) (p : Nat) : Nat :=
  ((ps.take p).map (fun q => q.indices.length)).sum

/-- The claim's precondition: every input index is primitive-local and
below its own primitive's vertex count. -/
def localIndicesValid (ps : List Primitive) : Prop :=
  ∀ p ∈ ps, ∀ i ∈ p.indices, i < p.vertices.length

instance (ps : List Primitive) : Decidable (localIndicesValid ps) := by
  unfold localIndicesValid
  infer_instance

/-- `Raytracer::PrimitiveInfo` as pushed at Raytracer.cpp lines
665-671: `{highestIndex, ui32Size(primitive.indices) / 3,
indexByteOffset}`. -/
structure PrimitiveInfo where
  maxVertex : Nat
  triangleCount : Nat
  indexByteOffset : Nat
deriving DecidableEq, Repr

/-- The `m_primitiveInfos` construction of the same loop: per
primitive, the running maximum of its local indices (`highestIndex`,
starting from 0), the triangle count `ui32Size(indices) / 3`, and the
running byte offset into the packed index region
(`sizeof(Model::Index)` is 4). -/
def buildPrimitiveInfosAux : List Primitive → Nat → List PrimitiveInfo
  | [], _ => []
  | p :: ps, off =>
    ⟨p.indices.foldl max 0, u32 p.indices.length / 3, off⟩ ::
      buildPrimitiveInfosAux ps (off + 4 * p.indices.length)

/-- `m_primitiveInfos` after `createVertexAndIndexBuffer`. -/
def buildPrimitiveInfos (ps : List Primitive) : List PrimitiveInfo :=
  buildPrimitiveInfosAux ps 0

/-! ## Raytracer.cpp: createBLAS (size query versus build) -/

/-- `VkAccelerationStructureGeometryTrianglesDataKHR` as filled in at
Raytracer.cpp lines 1069-1078 (the fields that vary; device addresses
are opaque numbers, `vertexStride` is `sizeof(Model::Vertex)` = 64). -/
structure GeometryTrianglesData where
  vertexAddress : Nat
  vertexStride : Nat
  maxVertex : Nat
  indexAddress : Nat
deriving DecidableEq, Repr

/-- `VkAccelerationStructureBuildRangeInfoKHR` as filled in at
Raytracer.cpp lines 1090-1094. -/
structure BuildRangeInfo where
  primitiveCount : Nat
  primitiveOffset : Nat
  firstVertex : Nat
  transformOffset : Nat
deriving DecidableEq, Repr

/-- The `geometries` array built by the loop at Raytracer.cpp lines
1067-1096, one triangle geometry per `PrimitiveInfo`. -/
def blasGeometries (vertexAddress indexAddress : Nat)
    (infos : List PrimitiveInfo) : List GeometryTrianglesData :=
  infos.map (fun info => ⟨vertexAddress, 64, info.maxVertex, indexAddress⟩)

/-- The `triangleCounts` array passed as `pMaxPrimitiveCounts` to
`vkGetAccelerationStructureBuildSizesKHR` (Raytracer.cpp lines 1088
and 1119). -/
def blasTriangleCounts (infos : List PrimitiveInfo) : List Nat :=
  infos.map (fun info => info.triangleCount)

/-- The `rangeInfos` array passed to
`vkCmdBuildAccelerationStructuresKHR` (Raytracer.cpp lines 1090-1095
and 1165-1166). -/
def blasRangeInfos (infos : List PrimitiveInfo) : List BuildRangeInfo :=
  infos.map (fun info => ⟨info.triangleCount, info.indexByteOffset, 0, 0⟩)

/-- `VkAccelerationStructureBuildGeometryInfoKHR` (the fields the claim
is about): the geometry array plus the two fields mutated between the
size query and the build command (Raytracer.cpp lines 1098-1109 and
1160-1161). -/
structure BuildGeometryInfo where
  geometries : List GeometryTrianglesData
  dstValid : Bool
  scratchAddress : Nat
deriving DecidableEq, Repr

/-- The geometry info as passed to the size query: `dstAccelerationStructure`
still null and scratch address zero. -/
def blasSizeQueryInfo (vertexAddress indexAddress : Nat)
    (infos : List PrimitiveInfo) : BuildGeometryInfo :=
  ⟨blasGeometries vertexAddress indexAddress infos, false, 0⟩

/-- The geometry info as passed to the build command: the same struct
with only `dstAccelerationStructure` and `scratchData` updated
(Raytracer.cpp lines 1160-1161); `pGeometries` is untouched. -/
def blasBuildCommandInfo (vertexAddress indexAddress scratchAddress : Nat)
    (infos : List PrimitiveInfo) : BuildGeometryInfo :=
  ⟨blasGeometries vertexAddress indexAddress infos, true, scratchAddress⟩

/-! ## Raytracer.cpp: updateMaterialIndexDescriptorSet -/

/-- `MaterialInfo` from Raytracer.cpp lines 33-39. -/
structure MaterialInfo where
  baseColorTextureIndex : Int
  metallicRoughnessTextureIndex : Int
  normalTextureIndex : Int
  indexBufferOffset : Int
deriving DecidableEq, Repr

/-- The unchecked vector access `m_model->materials[primitive.material]`
(Raytracer.cpp lines 1428-1430), modelled as `none` when the `int`
index is negative or out of range. -/
def getMaterial (mats : List Material) (i : Int) : Option Material :=
  if h : 0 ≤ i ∧ i.toNat < mats.length then some (mats.get ⟨i.toNat, h.2⟩) else none

/-- The `materialInfo` build loop of
`Raytracer::updateMaterialIndexDescriptorSet` (Raytracer.cpp lines
1423-1439): per primitive it copies the material's three image
indices and the running `indexBufferOffset` (advanced by
`indices.size() / 3`), then clamps the normal and metallic-roughness
indices with `std::max(…, 0)`.  The base-color index is not clamped. -/
def buildMaterialInfosAux (mats : List Material) :
    List Primitive → Int → Option (List MaterialInfo)
  | [], _ => some []
  | p :: ps, off =>
    match getMaterial mats p.material with
    | none => none
    | some m =>
      match buildMaterialInfosAux mats ps (off + (p.indices.length / 3 : Nat)) with
      | none => none
      | some rest =>
        some (⟨m.baseColor, max m.metallicRoughnessImage 0, max m.normalImage 0, off⟩ :: rest)

/-- The records uploaded to the material-lookup buffer, with
`indexBufferOffset` starting at 0 (Raytracer.cpp line 1425). -/
def buildMaterialInfos (mats : List Material) (ps : List Primitive) :
    Option (List MaterialInfo) :=
  buildMaterialInfosAux mats ps 0

/-! ## Concrete example inputs for witnesses -/

/-- A concrete vertex for example models. -/
def exVertex : Vertex :=
  ⟨⟨0, 0, 0, 0⟩, ⟨0, 1, 0, 0⟩, ⟨0, 0, 0, 0⟩, ⟨1, 0, 0, 0⟩⟩

/-- A concrete two-primitive model: a triangle (3 vertices) and a quad
(4 vertices, 6 indices), both using material 0. -/
def exPrimitives : List Primitive :=
  [⟨[exVertex, exVertex, exVertex], [0, 1, 2], 0⟩,
   ⟨[exVertex, exVertex, exVertex, exVertex], [0, 1, 2, 2, 3, 0], 0⟩]

/-- A concrete materials array with every texture absent. -/
def exMaterials : List Material := [⟨-1, -1, -1⟩]

/-- The material-lookup records for `exMaterials` and `exPrimitives`. -/
def exMaterialInfos : List MaterialInfo :=
  [⟨-1, 0, 0, 0⟩, ⟨-1, 0, 0, 1⟩]

end Vkrt

/-! ## Theorems -/

namespace Vkrt

/-- Every value the rewrite loop writes is a `uint32_t` value. -/
theorem rewriteIndicesAux_mem_lt (ps : List Primitive) (off : Nat) :
    ∀ v ∈ rewriteIndicesAux ps off, v < 2 ^ 32 := by
  induction ps generalizing off with
  | nil => intro v hv; simp [rewriteIndicesAux] at hv
  | cons p ps ih =>
    intro v hv
    simp only [rewriteIndicesAux, List.mem_append, List.mem_map] at hv
    rcases hv with ⟨i, _, rfl⟩ | hv
    · exact Nat.mod_lt _ (by norm_num)
    · exact ih _ v hv

/-- When the running offset plus the remaining vertex counts fits in
`uint32_t` and all indices are primitive-local, every rewritten value
is below the running offset plus the remaining vertex counts. -/
theorem rewriteIndicesAux_mem_bound (ps : List Primitive) (S : Nat)
    (hfit : S + totalPackedVertexCount ps < 2 ^ 32)
    (hpre : localIndicesValid ps) :
    ∀ v ∈ rewriteIndicesAux ps S, v < S + totalPackedVertexCount ps := by
  induction ps generalizing S with
  | nil => intro v hv; simp [rewriteIndicesAux] at hv
  | cons p ps ih =>
    intro v hv
    have hvc : totalPackedVertexCount (p :: ps)
        = p.vertices.length + totalPackedVertexCount ps := by
      simp [totalPackedVertexCount]
    simp only [rewriteIndicesAux, List.mem_append, List.mem_map] at hv
    rcases hv with ⟨i, hi, rfl⟩ | hv
    · have hilt : i < p.vertices.length := hpre p (List.mem_cons_self p ps) i hi
      have h1 : S + i < 2 ^ 32 := by omega
      rw [u32, Nat.mod_eq_of_lt h1]
      omega
    · have hoff : u32 (S + p.vertices.length) = S + p.vertices.length := by
        rw [u32]; exact Nat.mod_eq_of_lt (by omega)
      rw [hoff] at hv
      have hb := ih (S + p.vertices.length) (by omega)
        (fun q hq => hpre q (List.mem_cons_of_mem p hq)) v hv
      omega

/-- Position of the j-th rewritten index of primitive `p`: the written
value is the running offset plus the vertex-count prefix sum plus the
original local index, in `uint32_t` arithmetic. -/
theorem rewriteIndicesAux_get (ps : List Primitive) (off : Nat) :
    ∀ (p : Nat) (hp : p < ps.length) (j : Nat)
      (hj : j < (ps.get ⟨p, hp⟩).indices.length),
      (rewriteIndicesAux ps off).get? (indexCountBefore ps p + j)
        = some (u32 (off + vertexCountBefore ps p + (ps.get ⟨p, hp⟩).indices.get ⟨j, hj⟩)) := by
  induction ps generalizing off with
  | nil => intro p hp; exact absurd hp (by simp)
  | cons q ps ih =>
    intro p hp j hj
    cases p with
    | zero =>
      have hj2 : j < q.indices.length := by simpa using hj
      simp only [rewriteIndicesAux, indexCountBefore, vertexCountBefore, List.take_zero,
        List.map_nil, List.sum_nil, Nat.zero_add]
      rw [List.get?_append (by simpa using hj2), List.get?_map, List.get?_eq_get hj2]
      simp
    | succ p =>
      have hp2 : p < ps.length := by simpa using hp
      have hj2 : j < (ps.get ⟨p, hp2⟩).indices.length := by simpa using hj
      have hicb : indexCountBefore (q :: ps) (p + 1) + j
          = q.indices.length + (indexCountBefore ps p + j) := by
        simp [indexCountBefore, List.take_succ_cons]
        omega
      have hvcb : vertexCountBefore (q :: ps) (p + 1)
          = q.vertices.length + vertexCountBefore ps p := by
        simp [vertexCountBefore, List.take_succ_cons]
      have harith : ∀ a b : Nat, u32 (u32 a + b) = u32 (a + b) := by
        intro a b; simp [u32, Nat.mod_add_mod]
      rw [hicb]
      show (rewriteIndicesAux (q :: ps) off).get? _ = _
      rw [rewriteIndicesAux.eq_def]
      simp only []
      rw [List.get?_append_right (by simp)]
      have hlen : q.indices.length + (indexCountBefore ps p + j)
          - (q.indices.map (fun i => u32 (off + i))).length
          = indexCountBefore ps p + j := by
        simp
      rw [hlen, ih (u32 (off + q.vertices.length)) p hp2 j hj2]
      show some (u32 (u32 (off + q.vertices.length) + vertexCountBefore ps p
            + (ps.get ⟨p, hp2⟩).indices.get ⟨j, hj2⟩))
        = some (u32 (off + vertexCountBefore (q :: ps) (p + 1)
            + (ps.get ⟨p, hp2⟩).indices.get ⟨j, hj2⟩))
      rw [hvcb, Nat.add_assoc (u32 (off + q.vertices.length)), harith]
      have hfin : off + q.vertices.length
            + (vertexCountBefore ps p + (ps.get ⟨p, hp2⟩).indices.get ⟨j, hj2⟩)
          = off + (q.vertices.length + vertexCountBefore ps p)
            + (ps.get ⟨p, hp2⟩).indices.get ⟨j, hj2⟩ := by omega
      rw [hfin]

/-- The vertex-count prefix sum through primitive `p` is at most the
total packed vertex count. -/
theorem vertexCountBefore_add_le (ps : List Primitive) :
    ∀ (p : Nat) (hp : p < ps.length),
      vertexCountBefore ps p + (ps.get ⟨p, hp⟩).vertices.length
        ≤ totalPackedVertexCount ps := by
  induction ps with
  | nil => intro p hp; exact absurd hp (by simp)
  | cons q ps ih =>
    intro p hp
    cases p with
    | zero => simp [vertexCountBefore, totalPackedVertexCount]
    | succ p =>
      have hp2 : p < ps.length := by simpa using hp
      have hrec := ih p hp2
      simp only [vertexCountBefore, totalPackedVertexCount, List.take_succ_cons,
        List.map_cons, List.sum_cons, List.get_cons_succ] at hrec ⊢
      omega

/-- Claim C6: the claim states that `toVec4 v w = (v.x, v.y, v.z, w)` for
every 3-component vector; the code instead stores `v.x` in the third
slot.  At the failing input `v = (1, 2, 3)`, `w = 0` the code produces
`(1, 2, 1, 0)`, which differs from the `(1, 2, 3, 0)` the claim
requires. -/
theorem C6_toVec4_drops_z_component :
    toVec4 ⟨1, 2, 3⟩ 0 = ⟨1, 2, 1, 0⟩ ∧ toVec4 ⟨1, 2, 3⟩ 0 ≠ ⟨1, 2, 3, 0⟩ := by
  constructor
  · rfl
  · decide

/-- Claim C4, counterexample: the first call to
`acquireNextSwapchainImage` uses frame slot 1, not 0, because
`m_frameIndex` starts at 0 and is incremented before use. -/
theorem C4_first_call_slot_is_not_zero :
    frameIndexAfterCalls 1 = 1 ∧ frameIndexAfterCalls 1 ≠ 0 := by
  constructor
  · rfl
  · decide

/-- Claim C4, amended: requesting `c_swapchainImageCount = 3` images
creates exactly 3 in-flight fences, 3 image-available semaphores and 3
render-finished semaphores, and successive calls to
`acquireNextSwapchainImage` use frame-slot indices `1,2,0,1,2,0,…`:
the k-th call uses slot `k % 3`. -/
theorem C4_counts_and_cycle :
    inFlightFenceCount = 3 ∧
    imageAvailableSemaphoreCount = 3 ∧
    renderFinishedSemaphoreCount = 3 ∧
    ∀ k : Nat, frameIndexAfterCalls k = k % 3 := by
  refine ⟨rfl, rfl, rfl, ?_⟩
  intro k
  induction k with
  | zero => rfl
  | succ n ih =>
    show nextFrameIndex (frameIndexAfterCalls n) = (n + 1) % 3
    rw [ih]
    unfold nextFrameIndex swapchainImagesCount c_swapchainImageCount
    have h3 : n % 3 < 3 := Nat.mod_lt n (by decide)
    interval_cases h : (n % 3) <;> simp [h, Nat.add_mod n 1 3]

/-- Claim C8, counterexample: the textures descriptor set layout is
created without any binding-flags struct, so its single
combined-image-sampler binding does not carry the partially-bound
flag (shown here at image count 5). -/
theorem C8_textures_layout_lacks_partially_bound :
    hasPartiallyBoundFlag (texturesDescriptorSetLayout 5) = false := by
  rfl

/-- Claim C8, amended: the textures descriptor set layout consists of
exactly one combined-image-sampler binding whose `descriptorCount`
equals the number of loaded texture images, but it carries no binding
flags; the partially-bound flag is instead set on the material-index
set's single storage-buffer binding. -/
theorem C8_layout_shape :
    ∀ imageCount : Nat,
      (texturesDescriptorSetLayout imageCount).bindings
          = [⟨0, DescriptorType.combinedImageSampler, imageCount⟩] ∧
      hasPartiallyBoundFlag (texturesDescriptorSetLayout imageCount) = false ∧
      hasPartiallyBoundFlag materialIndexDescriptorSetLayout = true := by
  intro imageCount
  exact ⟨rfl, rfl, rfl⟩

/-- Claim C7: for a model with zero images, `createTextures` reads
`m_images[0]` from an empty vector before any descriptor work happens,
an out-of-bounds access; the claim that texture creation completes
without out-of-bounds container accesses fails at the zero-image
input. -/
theorem C7_zero_images_out_of_bounds :
    createTexturesFirstImageAccess [] = none := by
  rfl

/-- Claim C2: the claim asserts that on every tick the fence guarding
the command buffer about to be re-recorded has been waited on since
that buffer's previous submission.  The code waits on the round-robin
fence `m_inFlightFences[m_frameIndex]` but re-records
`m_commandBuffers[imageIndex]` with the driver-chosen image index.  On
the legal driver trace that returns image 0 on two consecutive ticks
(with 3 frame slots), the first tick is safe, but the second tick
re-records command buffer 0 — guarded by fence 1 from its submission
on tick one — after waiting only on fence 2, which certifies nothing;
the claimed property fails. -/
theorem C2_fence_of_rerecorded_buffer_not_waited :
    syncRunTrace initSyncState [0] = true ∧
    syncRunTrace initSyncState [0, 0] = false := by
  exact ⟨rfl, rfl⟩

/-- Claim C3: the claim states the shader-binding-table buffer has size
`shaderGroupBaseAlignment × c_shaderGroupCount` and that every handle
copy stays inside it whenever `alignment ≥ handleSize`.  The code
instead allocates `shaderGroupHandleSize × c_shaderGroupCount` bytes
while the copy loop strides by the alignment.  At the device-reported
pair handle size 32, base alignment 64 (which satisfies the claim's
`alignment ≥ handleSize` precondition), the buffer is 128 bytes, not
the 256 the claim states, and the copy for group 2 writes bytes
[128, 160), past the end of the allocation. -/
theorem C3_sbt_allocation_too_small :
    shaderBindingTableSize 32 = 128 ∧
    specShaderBindingTableSize 64 = 256 ∧
    shaderBindingTableSize 32 ≠ specShaderBindingTableSize 64 ∧
    32 ≤ 64 ∧
    sbtCopyStart 64 2 = 128 ∧
    sbtCopyEnd 32 64 2 = 160 ∧
    ¬ sbtCopyEnd 32 64 2 ≤ shaderBindingTableSize 32 := by
  decide

/-- Claim C9: the claim states every `VkResult`-returning call is
checked at its call site and converted to an abort.  `VK_CHECK` does
abort on failure, but the call-site table of the cited functions
contains calls whose result is discarded: `vkCreateFence` in
`Context::createFences` (Context.cpp line 448) and
`vkResetCommandBuffer` / `vkBeginCommandBuffer` in `Raytracer::render`
(Raytracer.cpp lines 148-149), so the universal claim fails. -/
theorem C9_unchecked_vulkan_calls_exist :
    vkCheckAborts (VkResult.errorCode (-4)) = true ∧
    vkCheckAborts VkResult.success = false ∧
    allVkCallsChecked citedVkCallSites = false ∧
    citedVkCallSites.any
      (fun c => c.vulkanCall = "vkCreateFence" && !c.wrappedInVkCheck) = true := by
  refine ⟨rfl, rfl, ?_, ?_⟩ <;> decide

/-- Claim C1: the Geometry Packer's rewrite produces, for the j-th
index of primitive p, the value (sum of the vertex counts of all
primitives before p) + (that index's original primitive-local value),
computed in the `uint32_t` index type (`u32`); under the precondition
that every input index is local and below its own primitive's vertex
count, every rewritten index is below `totalPackedVertexCount`, and
when the total also fits in `uint32_t` the produced value is the plain
(unwrapped) sum. -/
theorem C1_packed_index_rewrite (ps : List Primitive) :
    (∀ (p : Nat) (hp : p < ps.length) (j : Nat)
       (hj : j < (ps.get ⟨p, hp⟩).indices.length),
       (rewriteIndices ps).get? (indexCountBefore ps p + j)
         = some (u32 (vertexCountBefore ps p + (ps.get ⟨p, hp⟩).indices.get ⟨j, hj⟩))) ∧
    (localIndicesValid ps →
      (∀ v ∈ rewriteIndices ps, v < totalPackedVertexCount ps) ∧
      (totalPackedVertexCount ps < 2 ^ 32 →
        ∀ (p : Nat) (hp : p < ps.length) (j : Nat)
          (hj : j < (ps.get ⟨p, hp⟩).indices.length),
          (rewriteIndices ps).get? (indexCountBefore ps p + j)
            = some (vertexCountBefore ps p + (ps.get ⟨p, hp⟩).indices.get ⟨j, hj⟩))) := by
  have hpos : ∀ (p : Nat) (hp : p < ps.length) (j : Nat)
      (hj : j < (ps.get ⟨p, hp⟩).indices.length),
      (rewriteIndices ps).get? (indexCountBefore ps p + j)
        = some (u32 (vertexCountBefore ps p + (ps.get ⟨p, hp⟩).indices.get ⟨j, hj⟩)) := by
    intro p hp j hj
    have h := rewriteIndicesAux_get ps 0 p hp j hj
    rw [rewriteIndices]
    simpa using h
  refine ⟨hpos, fun hpre => ⟨?_, ?_⟩⟩
  · intro v hv
    rw [rewriteIndices] at hv
    by_cases hfit : totalPackedVertexCount ps < 2 ^ 32
    · have hb := rewriteIndicesAux_mem_bound ps 0 (by omega) hpre v hv
      omega
    · have hlt := rewriteIndicesAux_mem_lt ps 0 v hv
      omega
  · intro hfit p hp j hj
    have h := hpos p hp j hj
    have hidx : (ps.get ⟨p, hp⟩).indices.get ⟨j, hj⟩ < (ps.get ⟨p, hp⟩).vertices.length :=
      hpre (ps.get ⟨p, hp⟩) (List.get_mem ps p hp) _ (List.get_mem _ j hj)
    have hle := vertexCountBefore_add_le ps p hp
    rw [h]
    have hsmall : vertexCountBefore ps p + (ps.get ⟨p, hp⟩).indices.get ⟨j, hj⟩ < 2 ^ 32 := by
      omega
    rw [u32, Nat.mod_eq_of_lt hsmall]

/-- Claim C1, witness: on the concrete two-primitive model the
precondition holds, the rewritten sequence is
`[0,1,2] ++ [3,4,5,5,6,3]`, every rewritten index is below the total
packed vertex count 7, and the first index of primitive 1 lands at
position 3 with value 3. -/
theorem C1_packed_index_rewrite_witness :
    localIndicesValid exPrimitives ∧
    totalPackedVertexCount exPrimitives = 7 ∧
    rewriteIndices exPrimitives = [0, 1, 2, 3, 4, 5, 5, 6, 3] ∧
    (∀ v ∈ rewriteIndices exPrimitives, v < totalPackedVertexCount exPrimitives) ∧
    (rewriteIndices exPrimitives).get? (indexCountBefore exPrimitives 1 + 0) = some 3 := by
  refine ⟨by decide, by decide, by decide,
    ((C1_packed_index_rewrite exPrimitives).2 (by decide)).1, ?_⟩
  have h := (C1_packed_index_rewrite exPrimitives).1 1 (by decide) 0 (by decide)
  exact h.trans (by decide)

/-- Claim C5: for every primitive, the entry of the max-primitive-count
list handed to the BLAS size query equals the `primitiveCount` of the
corresponding build range info handed to the build command, and the
build command uses the identical geometry description array as the
size query (only the destination structure and scratch address are
changed in between). -/
theorem C5_blas_query_build_counts_agree :
    ∀ (vertexAddress indexAddress scratchAddress : Nat)
      (infos : List PrimitiveInfo) (i : Nat),
      (blasTriangleCounts infos).get? i
        = ((blasRangeInfos infos).get? i).map (fun r => r.primitiveCount) ∧
      (blasBuildCommandInfo vertexAddress indexAddress scratchAddress infos).geometries
        = (blasSizeQueryInfo vertexAddress indexAddress infos).geometries := by
  intro vertexAddress indexAddress scratchAddress infos i
  refine ⟨?_, rfl⟩
  induction infos generalizing i with
  | nil => simp [blasTriangleCounts, blasRangeInfos]
  | cons info infos ih =>
    cases i with
    | zero => rfl
    | succ i =>
      show (blasTriangleCounts infos).get? i
        = ((blasRangeInfos infos).get? i).map (fun r => r.primitiveCount)
      exact ih i

/-- Claim C10: every `MaterialInfo` record built by
`updateMaterialIndexDescriptorSet` has a non-negative normal-texture
index and a non-negative metallic-roughness-texture index, because
both are clamped with `std::max(…, 0)` after the material lookup. -/
theorem C10_material_lookup_indices_nonneg :
    ∀ (mats : List Material) (ps : List Primitive) (off : Int) (l : List MaterialInfo),
      buildMaterialInfosAux mats ps off = some l →
      ∀ r ∈ l, 0 ≤ r.normalTextureIndex ∧ 0 ≤ r.metallicRoughnessTextureIndex := by
  intro mats ps
  induction ps with
  | nil =>
    intro off l h r hr
    simp only [buildMaterialInfosAux, Option.some.injEq] at h
    subst h
    simp at hr
  | cons p ps ih =>
    intro off l h r hr
    rw [buildMaterialInfosAux] at h
    cases hm : getMaterial mats p.material with
    | none => rw [hm] at h; cases h
    | some m =>
      rw [hm] at h
      cases hrec : buildMaterialInfosAux mats ps (off + (p.indices.length / 3 : Nat)) with
      | none => rw [hrec] at h; cases h
      | some rest =>
        rw [hrec] at h
        injection h with h
        subst h
        rcases List.mem_cons.mp hr with rfl | hmem
        · exact ⟨le_max_right _ _, le_max_right _ _⟩
        · exact ih _ _ hrec r hmem

/-- Claim C10, witness: with the single all-absent material (all image
indices `-1`) and the two-primitive model, the uploaded records are
`[⟨-1, 0, 0, 0⟩, ⟨-1, 0, 0, 1⟩]` and each has non-negative normal and
metallic-roughness indices. -/
theorem C10_material_lookup_indices_nonneg_witness :
    buildMaterialInfos exMaterials exPrimitives = some exMaterialInfos ∧
    ∀ r ∈ exMaterialInfos,
      0 ≤ r.normalTextureIndex ∧ 0 ≤ r.metallicRoughnessTextureIndex :=
  ⟨by decide,
    C10_material_lookup_indices_nonneg exMaterials exPrimitives 0 exMaterialInfos (by decide)⟩

end Vkrt
